import Mathlib

/-!
# QR Studio: payload resolution, short-link redirection, scan analytics

A shallow embedding of the request handlers of `app.js`:

* `POST /generate`            (`generate`)
* `GET /r/:shortId`           (`getR`, and its two storage steps `ScanTask.step`)
* `GET /api/dashboard-stats`  (`getDashboardStats`)
* `DELETE /api/qr/:id`        (`deleteQr`)

The MongoDB collection behind `QRModel` is a list of documents, the directory
`public/uploads` is a list of named files, and every handler is a function
from the state before the request to the state after it and the response.

JavaScript strings are sequences of UTF-16 code units, so that `trim` and the
regular expression of the file branch act on the same units as in the source.
Dates are integers (milliseconds since the epoch). Values the handler obtains
from outside its own code (`getUserId(req)`, `Date.now()`, `new Date()`,
`shortid.generate()`, the `_id` of a new document, the QR and PDF renderers)
are arguments of the model. The fields of `req.body` are strings or absent, as
the multipart form of `public/index.js` delivers them.

The file has the definitions first (the embedding, then example data), and
then the theorems: storage lemmas, the two outcomes of the redirect, deletion,
the invariant `scans == length(scanHistory)`, registration, the histogram, the
file and text branches of the resolver, and interleaved scans.
-/

namespace QrStudio

/-! ## JavaScript strings -/

/-- A JavaScript string: its UTF-16 code units. -/
abbrev JsString := List Nat

/-- UTF-16 code units of one Unicode scalar value. -/
def utf16 (c : Char) : List Nat :=
  if c.toNat < 65536 then [c.toNat]
  else [55296 + (c.toNat - 65536) / 1024, 56320 + (c.toNat - 65536) % 1024]

/-- Code units of a string literal. -/
def js (s : String) : JsString := s.toList.flatMap utf16

/-- The code units `String.prototype.trim` strips: WhiteSpace and LineTerminator
of ECMAScript (TAB, LF, VT, FF, CR, SP, NBSP, U+1680, U+2000..U+200A, LS, PS,
U+202F, U+205F, U+3000, BOM). -/
def isJsWhiteSpace (u : Nat) : Bool :=
  u == 9 || u == 10 || u == 11 || u == 12 || u == 13 || u == 32 || u == 160 ||
  u == 5760 || (decide (8192 ≤ u) && decide (u ≤ 8202)) || u == 8232 || u == 8233 ||
  u == 8239 || u == 8287 || u == 12288 || u == 65279

/-- The method `String.prototype.trim`. -/
def trim (s : JsString) : JsString :=
  ((s.dropWhile isJsWhiteSpace).reverse.dropWhile isJsWhiteSpace).reverse

/-- The expression `x || d` for an optional string field `x`: an absent field
and the empty string are falsy. -/
def orDefault (x : Option JsString) (d : JsString) : JsString :=
  match x with
  | none => d
  | some s => if s = [] then d else s

/-- Decimal digits of a non-negative integer, as `Date.now() + '_'` converts it. -/
def decimal (n : Nat) : JsString := (Nat.toDigits 10 n).map Char.toNat

/-- The character class `[a-zA-Z0-9.]`. -/
def isAlnumDot (u : Nat) : Bool :=
  (decide (97 ≤ u) && decide (u ≤ 122)) || (decide (65 ≤ u) && decide (u ≤ 90)) ||
  (decide (48 ≤ u) && decide (u ≤ 57)) || u == 46

/-- The call `originalname.replace(/[^a-zA-Z0-9.]/g, '_')`: the expression has no
`u` flag, so it replaces code unit by code unit. -/
def sanitize (originalname : JsString) : JsString :=
  originalname.map (fun u => if isAlnumDot u then u else 95)

/-- The character class `[A-Za-z0-9._]`. -/
def isSafeChar (u : Nat) : Bool := isAlnumDot u || u == 95

/-! ## Data model -/

/-- A MongoDB `ObjectId`. -/
abbrev ObjectId := Nat

/-- A document of `QRModel` (schema of `app.js`, lines 47-61). `scanHistory`
holds the `timestamp` of each entry, in insertion order; `createdAt` and
`updatedAt` come from `timestamps: true`. -/
structure QR where
  _id : ObjectId
  userId : ObjectId
  title : JsString
  targetUrl : JsString
  shortId : JsString
  qrImage : JsString
  scans : Nat
  scanHistory : List Int
  createdAt : Int
  updatedAt : Int
deriving DecidableEq

/-- The collection of `QRModel` documents, in insertion order. -/
abbrev Store := List QR

/-- What a handler sends: `res.redirect`, `res.status(..).send`, or `res.json`
with one of the four bodies the handlers build. `uncaught` is the outcome of a
handler without `try`/`catch` whose awaited call throws: the handler stops
there and writes no response of its own. -/
inductive Response where
  | redirect (location : JsString)
  | send (status : Nat) (body : String)
  | jsonError (status : Nat) (error : String)
  | jsonSuccess
  | jsonGenerated (pngDataUrl pdfDataUrl : JsString)
  | jsonStats (totalQRs totalScans : Nat) (graphData : List Nat) (qrList : List QR)
  | uncaught (error : String)
deriving DecidableEq

/-- The storage invariant MongoDB maintains: `_id` is the primary key and
`shortId` has a unique index (`unique: true` in the schema). -/
def Store.WF (db : Store) : Prop :=
  (db.map (fun r => r._id)).Nodup ∧ (db.map (fun r => r.shortId)).Nodup

instance (db : Store) : Decidable db.WF := by
  unfold Store.WF; exact inferInstance

/-- The query `QRModel.findOne({ shortId })`. -/
def findOneByShortId (db : Store) (shortId : JsString) : Option QR :=
  db.find? (fun r => decide (r.shortId = shortId))

/-- The query `QRModel.findOne({ _id, userId })`. -/
def findOneByIdAndUser (db : Store) (id userId : ObjectId) : Option QR :=
  db.find? (fun r => decide (r._id = id) && decide (r.userId = userId))

/-- The call `qr.save()`: the stored document with the `_id` of `qr` takes the
state of `qr`, and `updatedAt` the time of the save. -/
def save (db : Store) (qr : QR) (savedAt : Int) : Store :=
  db.map (fun r => if r._id = qr._id then { qr with updatedAt := savedAt } else r)

/-- The call `QRModel.create(doc)`: the insert is refused when the `_id` or the
`shortId` is already taken (unique indexes); `scans` and `scanHistory` take
their schema defaults `0` and `[]`. -/
def create (db : Store) (newId userId : ObjectId) (title targetUrl shortId qrImage : JsString)
    (createdAt : Int) : Except String Store :=
  if db.any (fun r => decide (r._id = newId) || decide (r.shortId = shortId)) then
    .error "E11000 duplicate key error"
  else
    .ok (db ++ [{ _id := newId, userId := userId, title := title, targetUrl := targetUrl,
                  shortId := shortId, qrImage := qrImage, scans := 0, scanHistory := [],
                  createdAt := createdAt, updatedAt := createdAt }])

/-- The call `qr.deleteOne()`: removes the stored document with the `_id` of `qr`. -/
def deleteOne (db : Store) (qr : QR) : Store :=
  db.eraseP (fun r => decide (r._id = qr._id))

/-! ## GET /r/:shortId -/

/-- The in-memory mutation of lines 170-171: `qr.scans += 1` and
`qr.scanHistory.push({ timestamp: new Date() })`. -/
def recordScan (qr : QR) (now : Int) : QR :=
  { qr with scans := qr.scans + 1, scanHistory := qr.scanHistory ++ [now] }

/-- The handler of `GET /r/:shortId` run from start to end. -/
def getR (db : Store) (shortId : JsString) (now savedAt : Int) : Store × Response :=
  match findOneByShortId db shortId with
  | none => (db, .send 404 "QR not found")
  | some qr => (save db (recordScan qr now) savedAt, .redirect qr.targetUrl)

/-! ## DELETE /api/qr/:id -/

/-- The handler of `DELETE /api/qr/:id`; `userId` is the result of
`getUserId(req)` and `id` the string `req.params.id`. The schema types `_id` as
an `ObjectId`, so the query casts `id` with `castObjectId` (the cast of the
database library, an argument of the model); when the cast fails `findOne`
throws a `CastError`, which the handler does not catch. -/
def deleteQr (castObjectId : JsString → Option ObjectId) (db : Store)
    (userId : Option ObjectId) (id : JsString) : Store × Response :=
  match userId with
  | none => (db, .jsonError 401 "Unauthorized")
  | some u =>
    match castObjectId id with
    | none => (db, .uncaught "CastError")
    | some oid =>
      match findOneByIdAndUser db oid u with
      | none => (db, .jsonError 404 "QR not found")
      | some qr => (deleteOne db qr, .jsonSuccess)

/-! ## GET /api/dashboard-stats -/

/-- The statement `graphData[k]++` on an array of integers. -/
def incrAt : List Nat → Nat → List Nat
  | [], _ => []
  | x :: xs, 0 => (x + 1) :: xs
  | x :: xs, k + 1 => x :: incrAt xs k

/-- The expression `Math.floor((now - s.timestamp) / 86400000)`: the age of a
scan event in whole days. Both dates are integers of milliseconds, so this is
the floor of an integer quotient; the quotient the source computes in double
precision has the same floor wherever that floor is between -1 and 7, which
is all the test `diff >= 0 && diff < 7` and the index `6 - diff` depend on. -/
def wholeDays (now timestamp : Int) : Int := Int.fdiv (now - timestamp) 86400000

/-- The body of the inner `forEach` (lines 272-273) for one scan event. -/
def countEvent (now : Int) (graphData : List Nat) (timestamp : Int) : List Nat :=
  let diff := wholeDays now timestamp
  if 0 ≤ diff ∧ diff < 7 then incrAt graphData (6 - diff).toNat else graphData

/-- Lines 267-275: `Array(7).fill(0)` and the two nested `forEach` loops. -/
def graphData (qrs : List QR) (now : Int) : List Nat :=
  qrs.foldl (fun g qr => qr.scanHistory.foldl (countEvent now) g) (List.replicate 7 0)

/-- Line 265: `qrs.reduce((s, q) => s + q.scans, 0)`. -/
def totalScans (qrs : List QR) : Nat := qrs.foldl (fun s q => s + q.scans) 0

/-- The query `QRModel.find({ userId }).sort({ createdAt: -1 })`. -/
def findByUser (db : Store) (userId : ObjectId) : List QR :=
  (db.filter (fun r => decide (r.userId = userId))).insertionSort
    (fun a b => b.createdAt ≤ a.createdAt)

/-- The handler of `GET /api/dashboard-stats`; `userId` is the result of
`getUserId(req)` and `now` the value of `new Date()`. -/
def getDashboardStats (db : Store) (userId : Option ObjectId) (now : Int) : Response :=
  match userId with
  | none => .jsonError 401 "Unauthorized"
  | some u =>
    let qrs := findByUser db u
    .jsonStats qrs.length (totalScans qrs) (graphData qrs now) qrs

/-- The scan events of a set of records: all entries of all `scanHistory` arrays. -/
def scanEvents (qrs : List QR) : List Int := qrs.flatMap (fun r => r.scanHistory)

/-- The age of a scan event in whole days as the specification words it: the
floor of the exact quotient `(now - timestamp) / 86400000`, a rational number. -/
def ageInDays (now timestamp : Int) : Int := ⌊((now - timestamp : Int) : ℚ) / 86400000⌋

/-- Number of scan events that are exactly `age` whole days old at `now`. -/
def eventsOfAge (events : List Int) (now : Int) (age : Int) : Nat :=
  events.countP (fun t => decide (ageInDays now t = age))

/-! ## POST /generate -/

/-- The value of `req.file` that multer builds from the upload. -/
structure UploadedFile where
  originalname : JsString
  buffer : List Nat
deriving DecidableEq

/-- What the handler reads from the request: `getUserId(req)`, the fields of
`req.body` (absent fields are `none`) and `req.file`. -/
structure GenerateRequest where
  userId : Option ObjectId
  mode : Option JsString
  title : Option JsString
  content : Option JsString
  file : Option UploadedFile
  size : Option JsString
  color : Option JsString
  bgcolor : Option JsString
deriving DecidableEq

/-- The `width` option handed to the renderer: a number written in the source,
or `parseInt` of a string of the request. -/
inductive Width where
  | number (n : Nat)
  | parseInt (s : JsString)
deriving DecidableEq

/-- The options object of a `QRCode.toDataURL` call. -/
structure RenderOptions where
  width : Width
  margin : Option Nat
  dark : Option JsString
  light : Option JsString
deriving DecidableEq

/-- Configuration and the libraries: `QRCode.toDataURL`, and the PDF document
built around the PNG (lines 235-252), which yields `pdfDataUrl`; either may
throw, and the message of the exception is the error value. `castObjectId` is
the cast of a string to the `ObjectId` of the schema, `none` when it fails. -/
structure Env where
  BASE_URL : JsString
  toDataURL : JsString → RenderOptions → Except String JsString
  pdfDataUrl : JsString → Except String JsString
  castObjectId : JsString → Option ObjectId

/-- The directory `public/uploads`: whether it exists, and its files. -/
structure FileSystem where
  uploadsDirExists : Bool
  uploads : List (JsString × List Nat)
deriving DecidableEq

/-- The state the handlers act on. -/
structure World where
  db : Store
  fs : FileSystem
deriving DecidableEq

/-- The helper `ensureUploadsDir`: creates the directory when it is missing. -/
def ensureUploadsDir (fs : FileSystem) : FileSystem :=
  if fs.uploadsDirExists then fs else { fs with uploadsDirExists := true }

/-- The call `fs.writeFileSync(path.join(dir, filename), buffer)`: creates the
file or replaces its content. -/
def writeFileSync (fs : FileSystem) (filename : JsString) (buffer : List Nat) : FileSystem :=
  { fs with uploads := fs.uploads.filter (fun f => decide (f.1 ≠ filename)) ++ [(filename, buffer)] }

/-- The stored file name of lines 197-200. -/
def storedFilename (now : Nat) (originalname : JsString) : JsString :=
  decimal now ++ js "_" ++ sanitize originalname

/-- Lines 186-191: the branch `if (mode === 'text')`. The incoming `targetUrl`
is the initial `''`. -/
def textBranch (mode : JsString) (content : Option JsString) (targetUrl : JsString) :
    Except Response JsString :=
  if mode = js "text" then
    match content with
    | none => .error (.jsonError 400 "Content missing")
    | some c => if c = [] then .error (.jsonError 400 "Content missing") else .ok (trim c)
  else .ok targetUrl

/-- Lines 193-206: the branch `if (mode === 'file')`. -/
def fileBranch (env : Env) (fs : FileSystem) (mode : JsString) (file : Option UploadedFile)
    (now : Nat) (targetUrl : JsString) : Except Response (FileSystem × JsString) :=
  if mode = js "file" then
    match file with
    | none => .error (.jsonError 400 "File missing")
    | some f =>
      let filename := storedFilename now f.originalname
      .ok (writeFileSync (ensureUploadsDir fs) filename f.buffer,
           env.BASE_URL ++ js "/uploads/" ++ filename)
  else .ok (fs, targetUrl)

/-- Lines 181-206: the resolution of `targetUrl`, with the file system after it,
or the validation response. -/
def resolveTarget (env : Env) (fs : FileSystem) (req : GenerateRequest) (now : Nat) :
    Except Response (FileSystem × JsString) :=
  let mode := orDefault req.mode (js "text")
  match textBranch mode req.content [] with
  | .error r => .error r
  | .ok targetUrl => fileBranch env fs mode req.file now targetUrl

/-- The options of the thumbnail call of line 215. -/
def thumbnailOptions : RenderOptions :=
  { width := .number 300, margin := none, dark := none, light := none }

/-- The options of the call of lines 226-233. -/
def responseOptions (req : GenerateRequest) : RenderOptions :=
  { width := match req.size with
      | none => .number 400
      | some s => if s = [] then .number 400 else .parseInt s
    margin := some 4
    dark := some (orDefault req.color (js "#000000"))
    light := some (orDefault req.bgcolor (js "#ffffff")) }

/-- Lines 226-256: the PNG of `finalPayload`, the PDF around it, and the JSON
response; an exception of either renderer is answered with status 500. -/
def renderResponse (env : Env) (finalPayload : JsString) (req : GenerateRequest) : Response :=
  match env.toDataURL finalPayload (responseOptions req) with
  | .error e => .jsonError 500 e
  | .ok pngDataUrl =>
    match env.pdfDataUrl pngDataUrl with
    | .error e => .jsonError 500 e
    | .ok pdf => .jsonGenerated pngDataUrl pdf

/-- Line 182: `(req.body.title || '').trim() || 'Untitled'`. -/
def titleOf (req : GenerateRequest) : JsString :=
  orDefault (some (trim (orDefault req.title []))) (js "Untitled")

/-- The handler of `POST /generate`. `now` is `Date.now()`, `shortId` the value
`shortid.generate()` returns, `newId` and `createdAt` the `_id` and creation
time a new document gets. -/
def generate (env : Env) (w : World) (req : GenerateRequest) (now : Nat)
    (shortId : JsString) (newId : ObjectId) (createdAt : Int) : World × Response :=
  match resolveTarget env w.fs req now with
  | .error r => (w, r)
  | .ok (fs1, targetUrl) =>
    match req.userId with
    | none => ({ w with fs := fs1 }, renderResponse env targetUrl req)
    | some userId =>
      let finalPayload := env.BASE_URL ++ js "/r/" ++ shortId
      match env.toDataURL finalPayload thumbnailOptions with
      | .error e => ({ w with fs := fs1 }, .jsonError 500 e)
      | .ok qrImage =>
        match create w.db newId userId (titleOf req) targetUrl shortId qrImage createdAt with
        | .error e => ({ w with fs := fs1 }, .jsonError 500 e)
        | .ok db1 => ({ db := db1, fs := fs1 }, renderResponse env finalPayload req)

/-! ## Sequential executions -/

/-- One request that changes the state. -/
inductive Op where
  | generate (req : GenerateRequest) (now : Nat) (shortId : JsString) (newId : ObjectId)
      (createdAt : Int)
  | scan (shortId : JsString) (now savedAt : Int)
  | delete (userId : Option ObjectId) (id : JsString)

/-- The state after one request. -/
def applyOp (env : Env) (w : World) : Op → World
  | .generate req now shortId newId createdAt => (generate env w req now shortId newId createdAt).1
  | .scan shortId now savedAt => { w with db := (getR w.db shortId now savedAt).1 }
  | .delete userId id => { w with db := (deleteQr env.castObjectId w.db userId id).1 }

/-- The state of a fresh installation. -/
def emptyWorld : World := { db := [], fs := { uploadsDirExists := false, uploads := [] } }

/-- The state after a sequence of requests, each run to its end before the next. -/
def run (env : Env) (ops : List Op) : World := ops.foldl (applyOp env) emptyWorld

/-! ## Interleaved scans

The handler of `GET /r/:shortId` suspends at `await QRModel.findOne(..)` and at
`await qr.save()`, so between its read and its write other requests may run. -/

/-- How `save()` persists the pushed entry: as the whole array held in memory,
or as an append to the stored array (a `$push` update). `scans` is written as
the in-memory value in both. -/
inductive PushMode where
  | wholeArray
  | append
deriving DecidableEq

/-- The write of `qr.save()` for a document mutated by `recordScan`. -/
def saveScan (m : PushMode) (db : Store) (qr : QR) (now savedAt : Int) : Store :=
  match m with
  | .wholeArray => save db qr savedAt
  | .append =>
    db.map (fun r => if r._id = qr._id then
      { r with scans := qr.scans, scanHistory := r.scanHistory ++ [now], updatedAt := savedAt }
      else r)

/-- Progress of one scan request. -/
inductive ScanTask where
  | start (shortId : JsString)
  | loaded (qr : QR) (now : Int)
  | finished (response : Response)
deriving DecidableEq

/-- One storage step of a scan request at time `t`: from `start`, the
`findOne` and the in-memory mutation; from `loaded`, the `save` and the
redirect. -/
def ScanTask.step (m : PushMode) (db : Store) (t : Int) : ScanTask → Store × ScanTask
  | .start shortId =>
    match findOneByShortId db shortId with
    | none => (db, .finished (.send 404 "QR not found"))
    | some qr => (db, .loaded (recordScan qr t) t)
  | .loaded qr now => (saveScan m db qr now t, .finished (.redirect qr.targetUrl))
  | .finished r => (db, .finished r)

/-- Runs a schedule: each entry names the request that takes its next step. The
clock advances by one millisecond per step. -/
def runSchedule (m : PushMode) : Store → List ScanTask → Int → List Nat → Store × List ScanTask
  | db, tasks, _, [] => (db, tasks)
  | db, tasks, t, i :: rest =>
    match tasks.get? i with
    | none => runSchedule m db tasks t rest
    | some task =>
      let r := ScanTask.step m db t task
      runSchedule m r.1 (tasks.set i r.2) (t + 1) rest

/-! ## Example data -/

/-- Value of a hexadecimal digit. -/
def hexDigit (u : Nat) : Option Nat :=
  if 48 ≤ u ∧ u ≤ 57 then some (u - 48)
  else if 97 ≤ u ∧ u ≤ 102 then some (u - 87)
  else if 65 ≤ u ∧ u ≤ 70 then some (u - 55)
  else none

/-- The cast of the examples: a string of 24 hexadecimal digits is the
`ObjectId` with that value, every other string fails. -/
def hexObjectId (s : JsString) : Option ObjectId :=
  if s.length = 24 then
    s.foldl (fun acc u =>
      match acc, hexDigit u with
      | some a, some d => some (16 * a + d)
      | _, _ => none) (some 0)
  else none

/-- The environment of the examples: base URL `http://localhost:3000`, a
renderer that answers with its payload behind a marker, a PDF step that
wraps its input, and the hexadecimal cast. -/
def demoEnv : Env :=
  { BASE_URL := js "http://localhost:3000"
    toDataURL := fun payload _ => .ok (js "png:" ++ payload)
    pdfDataUrl := fun png => .ok (js "pdf:" ++ png)
    castObjectId := hexObjectId }

/-- The environment of the examples with a renderer that throws. -/
def failingEnv : Env :=
  { demoEnv with toDataURL := fun _ _ => .error "render failed" }

/-- A registered record for `https://example.com`, scanned twice. -/
def demoRecord : QR :=
  { _id := 1, userId := 7, title := js "Untitled", targetUrl := js "https://example.com",
    shortId := js "abc", qrImage := js "png", scans := 2, scanHistory := [100, 200],
    createdAt := 50, updatedAt := 200 }

/-- A record of another owner. -/
def otherRecord : QR :=
  { _id := 2, userId := 8, title := js "Menu", targetUrl := js "hello",
    shortId := js "xyz", qrImage := js "png", scans := 0, scanHistory := [],
    createdAt := 60, updatedAt := 60 }

/-- A store with the two example records. -/
def demoStore : Store := [demoRecord, otherRecord]

/-- The invariant `scans == length(scanHistory)` on every record of a store. -/
def ScansMatchHistory (db : Store) : Prop := ∀ r ∈ db, r.scans = r.scanHistory.length

/-- A request sequence of the examples: an authenticated link generation, two
scans of the new code, a scan of an unknown code, a deletion refused to
another owner, and a deletion with a malformed id. -/
def demoOps : List Op :=
  [ .generate { userId := some 7, mode := some (js "text"), title := none,
                content := some (js " https://example.com "), file := none, size := none,
                color := none, bgcolor := none } 5000 (js "abc") 1 5001,
    .scan (js "abc") 6000 6001,
    .scan (js "abc") 7000 7001,
    .scan (js "nope") 8000 8001,
    .delete (some 8) (js "000000000000000000000001"),
    .delete (some 7) (js "not-an-objectid") ]

/-- The record the example sequence leaves in the store. -/
def demoScanned : QR :=
  { _id := 1, userId := 7, title := js "Untitled", targetUrl := js "https://example.com",
    shortId := js "abc", qrImage := js "png:http://localhost:3000/r/abc", scans := 2,
    scanHistory := [6000, 7000], createdAt := 5001, updatedAt := 7001 }

/-- An authenticated link-style generation request of the examples. -/
def demoRequest : GenerateRequest :=
  { userId := some 7, mode := some (js "text"), title := none,
    content := some (js " https://example.com "), file := none, size := none,
    color := none, bgcolor := none }

/-- The scan events counted by the histogram: those whose age is 0 to 6 whole days. -/
def eventsInWindow (events : List Int) (now : Int) : Nat :=
  events.countP (fun t => decide (0 ≤ ageInDays now t ∧ ageInDays now t < 7))

/-- A store of the examples, read at `now = 10 * 86400000`: owner 7 has scan
events of age 0, 0, 6 and 8 whole days and one from the future; owner 8 has one
of age 0. -/
def histogramStore : Store :=
  [ { _id := 1, userId := 7, title := js "a", targetUrl := js "x", shortId := js "s1",
      qrImage := js "png", scans := 3,
      scanHistory := [864000000, 863999999, 345600000], createdAt := 1, updatedAt := 1 },
    { _id := 2, userId := 8, title := js "b", targetUrl := js "y", shortId := js "s2",
      qrImage := js "png", scans := 1, scanHistory := [864000000], createdAt := 2,
      updatedAt := 2 },
    { _id := 3, userId := 7, title := js "c", targetUrl := js "z", shortId := js "s3",
      qrImage := js "png", scans := 2, scanHistory := [172800000, 864000001],
      createdAt := 3, updatedAt := 3 } ]

/-- An anonymous file-mode request of the examples; the name holds a space, a
slash and a letter outside ASCII. -/
def fileRequest : GenerateRequest :=
  { userId := none, mode := some (js "file"), title := none, content := none,
    file := some { originalname := js "a b/é.txt", buffer := [1, 2, 3] }, size := none,
    color := none, bgcolor := none }

/-- The request the page `public/index.js` sends by default: mode `link` (the
checked radio button) with the trimmed content of the input field. -/
def linkRequest : GenerateRequest :=
  { userId := none, mode := some (js "link"), title := none,
    content := some (js "https://example.com"), file := none, size := none, color := none,
    bgcolor := none }

/-- An authenticated text-mode request whose content is three spaces. -/
def blankRequest : GenerateRequest :=
  { userId := some 7, mode := some (js "text"), title := none, content := some (js "   "),
    file := none, size := none, color := none, bgcolor := none }

/-- A link-mode request without content. -/
def emptyLinkRequest : GenerateRequest :=
  { userId := none, mode := some (js "link"), title := none, content := none, file := none,
    size := none, color := none, bgcolor := none }

/-- A record right after its creation: no scans yet. -/
def freshRecord : QR :=
  { _id := 1, userId := 7, title := js "Untitled", targetUrl := js "https://example.com",
    shortId := js "abc", qrImage := js "png", scans := 0, scanHistory := [],
    createdAt := 50, updatedAt := 50 }

/-! ## Storage lemmas -/

theorem find?_eq_some_of_unique {α : Type} (p : α → Bool) (r : α) :
    ∀ l : List α, r ∈ l → p r = true → (∀ x ∈ l, p x = true → x = r) → l.find? p = some r := by
  intro l
  induction l with
  | nil => intro h; cases h
  | cons x xs ih =>
    intro hr hp huniq
    by_cases hx : p x = true
    · have hxr : x = r := huniq x (List.mem_cons_self x xs) hx
      subst hxr
      rw [List.find?_cons, hx]
    · have hne : x ≠ r := fun h => hx (h ▸ hp)
      have hr2 : r ∈ xs := by
        rcases List.mem_cons.mp hr with h | h
        · exact absurd h.symm hne
        · exact h
      have hfalse : p x = false := by simpa using hx
      rw [List.find?_cons, hfalse]
      exact ih hr2 hp (fun y hy hpy => huniq y (List.mem_cons_of_mem x hy) hpy)

theorem eraseP_key_eq_erase {α κ : Type} [DecidableEq α] [DecidableEq κ] (f : α → κ) (r : α) :
    ∀ l : List α, (∀ x ∈ l, f x = f r → x = r) →
      l.eraseP (fun x => decide (f x = f r)) = l.erase r := by
  intro l
  induction l with
  | nil => intro _; rfl
  | cons x xs ih =>
    intro h
    have ih2 := ih (fun y hy => h y (List.mem_cons_of_mem x hy))
    by_cases hx : f x = f r
    · have hxr : x = r := h x (List.mem_cons_self x xs) hx
      subst hxr
      simp [List.eraseP_cons]
    · have hne : x ≠ r := fun e => hx (by rw [e])
      simp [List.eraseP_cons, List.erase_cons, hx, hne, ih2]

theorem Store.WF.id_inj {db : Store} (hwf : db.WF) {x y : QR} (hx : x ∈ db) (hy : y ∈ db)
    (h : x._id = y._id) : x = y :=
  List.inj_on_of_nodup_map hwf.1 hx hy h

theorem Store.WF.shortId_inj {db : Store} (hwf : db.WF) {x y : QR} (hx : x ∈ db) (hy : y ∈ db)
    (h : x.shortId = y.shortId) : x = y :=
  List.inj_on_of_nodup_map hwf.2 hx hy h

theorem Store.WF.nodup {db : Store} (hwf : db.WF) : db.Nodup :=
  List.Nodup.of_map _ hwf.1

theorem findOneByShortId_of_mem {db : Store} (hwf : db.WF) {r : QR} (hr : r ∈ db) :
    findOneByShortId db r.shortId = some r := by
  unfold findOneByShortId
  apply find?_eq_some_of_unique _ r db hr
  · simp
  · intro x hx hp
    exact hwf.shortId_inj hx hr (by simpa using hp)

theorem findOneByShortId_none {db : Store} {shortId : JsString}
    (h : ∀ r ∈ db, r.shortId ≠ shortId) : findOneByShortId db shortId = none := by
  unfold findOneByShortId
  rw [List.find?_eq_none]
  intro x hx
  simpa using h x hx

theorem save_eq_map {db : Store} (hwf : db.WF) {r : QR} (hr : r ∈ db) (qr : QR)
    (hid : qr._id = r._id) (savedAt : Int) :
    save db qr savedAt =
      db.map (fun x => if x = r then { qr with updatedAt := savedAt } else x) := by
  unfold save
  apply List.map_congr_left
  intro x hx
  by_cases hxr : x = r
  · subst hxr; simp [hid]
  · have hne : x._id ≠ qr._id := fun e => hxr (hwf.id_inj hx hr (e.trans hid))
    simp [hxr, hne]

/-! ## GET /r/:shortId: the two outcomes -/

/-- C8. Unknown short identifier: when no record of the store has the requested
`shortId`, the handler answers 404 with the text `QR not found`, sends no
redirect, and the store is left exactly as it was. -/
theorem getR_unknown_shortId (db : Store) (shortId : JsString) (now savedAt : Int)
    (h : ∀ r ∈ db, r.shortId ≠ shortId) :
    getR db shortId now savedAt = (db, .send 404 "QR not found") := by
  unfold getR
  rw [findOneByShortId_none h]

theorem getR_unknown_shortId_witness :
    (∀ r ∈ demoStore, r.shortId ≠ js "nope") ∧
    getR demoStore (js "nope") 1000 1001 = (demoStore, .send 404 "QR not found") :=
  ⟨by decide, getR_unknown_shortId demoStore (js "nope") 1000 1001 (by decide)⟩

/-- C5. Successful redirect: in a store with unique `_id` and unique `shortId`,
a request for the `shortId` of a stored record `r` redirects to `r.targetUrl`,
and the store afterwards is the store before with `r` alone replaced by `r`
with `scans + 1`, one timestamp appended to `scanHistory` and a new
`updatedAt`. The other fields of `r` (`targetUrl`, `title`, `shortId`,
`userId`, `qrImage`, `_id`, `createdAt`) and all other records are unchanged,
and the order of the records is kept. -/
theorem getR_success (db : Store) (hwf : db.WF) (r : QR) (hr : r ∈ db) (now savedAt : Int) :
    getR db r.shortId now savedAt =
      (db.map (fun x => if x = r then
          { r with scans := r.scans + 1, scanHistory := r.scanHistory ++ [now],
                   updatedAt := savedAt }
        else x),
       .redirect r.targetUrl) := by
  unfold getR
  rw [findOneByShortId_of_mem hwf hr]
  simp only
  rw [save_eq_map hwf hr (recordScan r now) rfl savedAt]
  rfl

theorem getR_success_witness :
    demoStore.WF ∧ demoRecord ∈ demoStore ∧
    getR demoStore (js "abc") 1000 1001 =
      ([{ demoRecord with scans := 3, scanHistory := [100, 200, 1000], updatedAt := 1001 },
        otherRecord],
       .redirect (js "https://example.com")) :=
  ⟨by decide, by decide, getR_success demoStore (by decide) demoRecord (by decide) 1000 1001⟩

/-! ## DELETE /api/qr/:id -/

theorem findOneByIdAndUser_of_mem {db : Store} (hwf : db.WF) {r : QR} (hr : r ∈ db) :
    findOneByIdAndUser db r._id r.userId = some r := by
  unfold findOneByIdAndUser
  apply find?_eq_some_of_unique _ r db hr
  · simp
  · intro x hx hp
    simp only [Bool.and_eq_true, decide_eq_true_eq] at hp
    exact hwf.id_inj hx hr hp.1

theorem findOneByIdAndUser_none {db : Store} {id o : ObjectId}
    (h : ∀ r ∈ db, ¬ (r._id = id ∧ r.userId = o)) : findOneByIdAndUser db id o = none := by
  unfold findOneByIdAndUser
  rw [List.find?_eq_none]
  intro x hx
  simpa using h x hx

theorem deleteOne_eq_erase {db : Store} (hwf : db.WF) {r : QR} (hr : r ∈ db) :
    deleteOne db r = db.erase r := by
  unfold deleteOne
  exact eraseP_key_eq_erase (fun x : QR => x._id) r db (fun x hx e => hwf.id_inj hx hr e)

/-- C7 (amended). Deletion and ownership, in a store with unique `_id`, for an
authenticated owner `o` and an id string that casts to the `ObjectId` `oid`:
(1) when a record `r` has that id and belongs to `o`, the answer is
`success: true` and the store loses `r` and nothing else; (2) when no record
has the id, and (3) when the record with the id belongs to another owner, the
answer is the one and the same `404` with error `QR not found` and the store is
unchanged; (4) so the store changes exactly when a record with that id owned
by `o` exists. For an id string that does not cast to an `ObjectId` the lookup
throws, no 404 is sent, and the store is unchanged. -/
theorem deleteQr_ownership (castObjectId : JsString → Option ObjectId) (db : Store)
    (hwf : db.WF) (o : ObjectId) (id : JsString) :
    (∀ oid, castObjectId id = some oid →
      (∀ r ∈ db, r._id = oid → r.userId = o →
        deleteQr castObjectId db (some o) id = (db.erase r, .jsonSuccess) ∧
        ∀ x, x ∈ db.erase r ↔ x ∈ db ∧ x ≠ r) ∧
      ((∀ r ∈ db, r._id ≠ oid) →
        deleteQr castObjectId db (some o) id = (db, .jsonError 404 "QR not found")) ∧
      (∀ r ∈ db, r._id = oid → r.userId ≠ o →
        deleteQr castObjectId db (some o) id = (db, .jsonError 404 "QR not found")) ∧
      ((deleteQr castObjectId db (some o) id).1 ≠ db ↔
        ∃ r ∈ db, r._id = oid ∧ r.userId = o)) ∧
    (castObjectId id = none →
      deleteQr castObjectId db (some o) id = (db, .uncaught "CastError")) := by
  constructor
  · intro oid hcast
    have hsucc : ∀ r ∈ db, r._id = oid → r.userId = o →
        deleteQr castObjectId db (some o) id = (db.erase r, .jsonSuccess) := by
      intro r hr hid ho
      unfold deleteQr
      simp only [hcast]
      rw [← hid, ← ho, findOneByIdAndUser_of_mem hwf hr]
      simp only
      rw [deleteOne_eq_erase hwf hr]
    have hfail : (∀ r ∈ db, ¬ (r._id = oid ∧ r.userId = o)) →
        deleteQr castObjectId db (some o) id = (db, .jsonError 404 "QR not found") := by
      intro h
      unfold deleteQr
      simp only [hcast]
      rw [findOneByIdAndUser_none h]
    refine ⟨?_, ?_, ?_, ?_⟩
    · intro r hr hid ho
      refine ⟨hsucc r hr hid ho, ?_⟩
      intro x
      rw [hwf.nodup.mem_erase_iff]
      exact And.comm
    · intro h
      exact hfail (fun r hr hc => h r hr hc.1)
    · intro r hr hid ho
      apply hfail
      intro x hx hc
      have hxr : x = r := hwf.id_inj hx hr (hc.1.trans hid.symm)
      exact ho (hxr ▸ hc.2)
    · constructor
      · intro hne
        by_contra hno
        apply hne
        rw [hfail (fun r hr hc => hno ⟨r, hr, hc⟩)]
      · rintro ⟨r, hr, hid, ho⟩
        rw [hsucc r hr hid ho]
        intro heq
        have hmem : r ∈ db.erase r := by
          simp only at heq
          rw [heq]; exact hr
        exact ((hwf.nodup.mem_erase_iff).mp hmem).1 rfl
  · intro hcast
    unfold deleteQr
    simp only [hcast]

theorem deleteQr_ownership_witness :
    demoStore.WF ∧
    hexObjectId (js "000000000000000000000001") = some 1 ∧
    deleteQr hexObjectId demoStore (some 7) (js "000000000000000000000001") =
      ([otherRecord], .jsonSuccess) ∧
    deleteQr hexObjectId demoStore (some 7) (js "000000000000000000000002") =
      (demoStore, .jsonError 404 "QR not found") ∧
    deleteQr hexObjectId demoStore (some 7) (js "00000000000000000000000a") =
      (demoStore, .jsonError 404 "QR not found") :=
  ⟨by decide, by decide,
   (((deleteQr_ownership hexObjectId demoStore (by decide) 7
        (js "000000000000000000000001")).1 1 (by decide)).1
      demoRecord (by decide) rfl rfl).1,
   ((deleteQr_ownership hexObjectId demoStore (by decide) 7
        (js "000000000000000000000002")).1 2 (by decide)).2.2.1
      otherRecord (by decide) rfl (by decide),
   ((deleteQr_ownership hexObjectId demoStore (by decide) 7
        (js "00000000000000000000000a")).1 10 (by decide)).2.1 (by decide)⟩

/-- C7 (counterexample). The id string `not-an-objectid` is the id of no record,
yet the answer is not the 404 of the not-found case: the cast to `ObjectId`
fails, the lookup throws a `CastError` that the handler does not catch, and no
response is written by the handler. The store is unchanged. -/
theorem deleteQr_malformed_id :
    hexObjectId (js "not-an-objectid") = none ∧
    deleteQr hexObjectId demoStore (some 7) (js "not-an-objectid") =
      (demoStore, .uncaught "CastError") ∧
    (deleteQr hexObjectId demoStore (some 7) (js "not-an-objectid")).2 ≠
      .jsonError 404 "QR not found" := by
  decide

/-! ## The invariant `scans == length(scanHistory)` -/

theorem create_eq_ok {db db1 : Store} {newId userId : ObjectId}
    {title targetUrl shortId qrImage : JsString} {createdAt : Int}
    (h : create db newId userId title targetUrl shortId qrImage createdAt = .ok db1) :
    db1 = db ++ [{ _id := newId, userId := userId, title := title, targetUrl := targetUrl,
                   shortId := shortId, qrImage := qrImage, scans := 0, scanHistory := [],
                   createdAt := createdAt, updatedAt := createdAt }] := by
  unfold create at h
  split at h
  · cases h
  · injection h with h; exact h.symm

theorem generate_db (env : Env) (w : World) (req : GenerateRequest) (now : Nat)
    (shortId : JsString) (newId : ObjectId) (createdAt : Int) :
    (generate env w req now shortId newId createdAt).1.db = w.db ∨
    ∃ userId title targetUrl qrImage,
      (generate env w req now shortId newId createdAt).1.db =
        w.db ++ [{ _id := newId, userId := userId, title := title, targetUrl := targetUrl,
                   shortId := shortId, qrImage := qrImage, scans := 0, scanHistory := [],
                   createdAt := createdAt, updatedAt := createdAt }] := by
  unfold generate
  split
  · exact Or.inl rfl
  · split
    · exact Or.inl rfl
    · rename_i userId _
      simp only
      split
      · exact Or.inl rfl
      · split
        · exact Or.inl rfl
        · rename_i db1 hc
          exact Or.inr ⟨_, _, _, _, create_eq_ok hc⟩

theorem generate_preserves (env : Env) (w : World) (req : GenerateRequest) (now : Nat)
    (shortId : JsString) (newId : ObjectId) (createdAt : Int) (h : ScansMatchHistory w.db) :
    ScansMatchHistory (generate env w req now shortId newId createdAt).1.db := by
  rcases generate_db env w req now shortId newId createdAt with e | ⟨u, t, tu, q, e⟩
  · rw [e]; exact h
  · rw [e]
    intro r hr
    rcases List.mem_append.mp hr with hr | hr
    · exact h r hr
    · rw [List.mem_singleton.mp hr]; rfl

theorem getR_preserves (db : Store) (shortId : JsString) (now savedAt : Int)
    (h : ScansMatchHistory db) : ScansMatchHistory (getR db shortId now savedAt).1 := by
  unfold getR
  split
  · exact h
  · rename_i qr hfind
    have hqr : qr ∈ db := List.mem_of_find?_eq_some hfind
    intro r hr
    simp only [save, List.mem_map] at hr
    obtain ⟨x, hx, hxr⟩ := hr
    split at hxr
    · rw [← hxr]
      simp [recordScan, h qr hqr]
    · rw [← hxr]; exact h x hx

theorem deleteQr_preserves (castObjectId : JsString → Option ObjectId) (db : Store)
    (userId : Option ObjectId) (id : JsString) (h : ScansMatchHistory db) :
    ScansMatchHistory (deleteQr castObjectId db userId id).1 := by
  unfold deleteQr
  split
  · exact h
  · split
    · exact h
    · split
      · exact h
      · intro r hr
        exact h r (List.mem_of_mem_eraseP hr)

theorem applyOp_preserves (env : Env) (w : World) (op : Op) (h : ScansMatchHistory w.db) :
    ScansMatchHistory (applyOp env w op).db := by
  cases op with
  | generate req now shortId newId createdAt =>
    exact generate_preserves env w req now shortId newId createdAt h
  | scan shortId now savedAt => exact getR_preserves w.db shortId now savedAt h
  | delete userId id => exact deleteQr_preserves env.castObjectId w.db userId id h

theorem foldl_applyOp_preserves (env : Env) (ops : List Op) :
    ∀ w : World, ScansMatchHistory w.db → ScansMatchHistory (ops.foldl (applyOp env) w).db := by
  induction ops with
  | nil => intro w h; exact h
  | cons op rest ih =>
    intro w h
    exact ih (applyOp env w op) (applyOp_preserves env w op h)

/-- C4. Invariant `scans == length(scanHistory)`: in every store state reached
from the empty store by any sequence of generate, scan and delete requests run
one after the other, every record has `scans` equal to the number of its
`scanHistory` entries. (New records start with `scans = 0` and no entries, see
`generate_db`; a scan adds one to both, see `getR_preserves`.) -/
theorem scans_eq_length_scanHistory (env : Env) (ops : List Op) (r : QR)
    (hr : r ∈ (run env ops).db) : r.scans = r.scanHistory.length :=
  foldl_applyOp_preserves env ops emptyWorld (fun _ h => by cases h) r hr

theorem scans_eq_length_scanHistory_witness :
    demoScanned ∈ (run demoEnv demoOps).db ∧
    demoScanned.scans = demoScanned.scanHistory.length :=
  ⟨by decide, scans_eq_length_scanHistory demoEnv demoOps demoScanned (by decide)⟩

/-! ## POST /generate: registration by owner presence -/

theorem create_fresh {db : Store} {newId : ObjectId} {shortId : JsString}
    (hfresh : ∀ r ∈ db, r._id ≠ newId ∧ r.shortId ≠ shortId) (userId : ObjectId)
    (title targetUrl qrImage : JsString) (createdAt : Int) :
    create db newId userId title targetUrl shortId qrImage createdAt =
      .ok (db ++ [{ _id := newId, userId := userId, title := title, targetUrl := targetUrl,
                    shortId := shortId, qrImage := qrImage, scans := 0, scanHistory := [],
                    createdAt := createdAt, updatedAt := createdAt }]) := by
  unfold create
  have hany : db.any (fun r => decide (r._id = newId) || decide (r.shortId = shortId)) = false := by
    rw [List.any_eq_false]
    intro x hx
    have := hfresh x hx
    simp [this.1, this.2]
  rw [hany]
  rfl

theorem renderResponse_payload {env : Env} {finalPayload : JsString} {req : GenerateRequest}
    {png pdf : JsString} (h : renderResponse env finalPayload req = .jsonGenerated png pdf) :
    env.toDataURL finalPayload (responseOptions req) = .ok png := by
  unfold renderResponse at h
  split at h
  · cases h
  · rename_i p hp
    split at h
    · cases h
    · injection h with h1 h2
      rw [hp, h1]

theorem create_taken {db : Store} {newId : ObjectId} {shortId : JsString}
    (htaken : ∃ r ∈ db, r._id = newId ∨ r.shortId = shortId) (userId : ObjectId)
    (title targetUrl qrImage : JsString) (createdAt : Int) :
    create db newId userId title targetUrl shortId qrImage createdAt =
      .error "E11000 duplicate key error" := by
  unfold create
  have hany : db.any (fun r => decide (r._id = newId) || decide (r.shortId = shortId)) = true := by
    rw [List.any_eq_true]
    obtain ⟨r, hr, h⟩ := htaken
    exact ⟨r, hr, by simpa using h⟩
  rw [hany]
  rfl

/-- C6 (amended). Registration by owner presence, for a request whose target
resolves to `t` (validation passed). (a) Without an owner identity the record
store is unchanged and the response is the rendering of `t` itself: a returned
PNG is `toDataURL(t, ..)`. (b) With owner `u`, whenever an image is returned,
that PNG is `toDataURL` of `BASE_URL + '/r/' + shortId` (not of `t`), and the
store is the store before plus exactly one record, appended, with that
`shortId`, owner `u`, `targetUrl = t`, the thumbnail of the same payload as
`qrImage`, `scans = 0` and empty `scanHistory`. (c) With owner `u`, when the
thumbnail renders and neither the new `_id` nor the generated `shortId` is
taken, the record is added as in (b) and the response is the rendering of
`BASE_URL + '/r/' + shortId`. (d) With owner `u`, when the thumbnail renderer
throws, and (e) when the `_id` or the generated `shortId` is already taken,
the answer is 500 and no record is added: `shortid.generate()` is called once
and a refused insert is not retried. -/
theorem generate_registration (env : Env) (w : World) (req : GenerateRequest) (now : Nat)
    (shortId : JsString) (newId : ObjectId) (createdAt : Int) (fs1 : FileSystem)
    (t : JsString) (hres : resolveTarget env w.fs req now = .ok (fs1, t)) :
    (req.userId = none →
      generate env w req now shortId newId createdAt =
        ({ db := w.db, fs := fs1 }, renderResponse env t req) ∧
      ∀ png pdf, (generate env w req now shortId newId createdAt).2 = .jsonGenerated png pdf →
        env.toDataURL t (responseOptions req) = .ok png) ∧
    (∀ u png pdf, req.userId = some u →
      (generate env w req now shortId newId createdAt).2 = .jsonGenerated png pdf →
      env.toDataURL (env.BASE_URL ++ js "/r/" ++ shortId) (responseOptions req) = .ok png ∧
      ∃ qrImage,
        env.toDataURL (env.BASE_URL ++ js "/r/" ++ shortId) thumbnailOptions = .ok qrImage ∧
        (generate env w req now shortId newId createdAt).1.db =
          w.db ++ [{ _id := newId, userId := u, title := titleOf req, targetUrl := t,
                     shortId := shortId, qrImage := qrImage, scans := 0, scanHistory := [],
                     createdAt := createdAt, updatedAt := createdAt }]) ∧
    (∀ u qrImage, req.userId = some u →
      env.toDataURL (env.BASE_URL ++ js "/r/" ++ shortId) thumbnailOptions = .ok qrImage →
      (∀ r ∈ w.db, r._id ≠ newId ∧ r.shortId ≠ shortId) →
      generate env w req now shortId newId createdAt =
        ({ db := w.db ++ [{ _id := newId, userId := u, title := titleOf req, targetUrl := t,
                            shortId := shortId, qrImage := qrImage, scans := 0,
                            scanHistory := [], createdAt := createdAt,
                            updatedAt := createdAt }],
           fs := fs1 },
         renderResponse env (env.BASE_URL ++ js "/r/" ++ shortId) req)) ∧
    (∀ u e, req.userId = some u →
      env.toDataURL (env.BASE_URL ++ js "/r/" ++ shortId) thumbnailOptions = .error e →
      generate env w req now shortId newId createdAt =
        ({ db := w.db, fs := fs1 }, .jsonError 500 e)) ∧
    (∀ u qrImage, req.userId = some u →
      env.toDataURL (env.BASE_URL ++ js "/r/" ++ shortId) thumbnailOptions = .ok qrImage →
      (∃ r ∈ w.db, r._id = newId ∨ r.shortId = shortId) →
      generate env w req now shortId newId createdAt =
        ({ db := w.db, fs := fs1 }, .jsonError 500 "E11000 duplicate key error")) := by
  refine ⟨?_, ?_, ?_, ?_, ?_⟩
  · intro hnone
    have hgen : generate env w req now shortId newId createdAt =
        ({ db := w.db, fs := fs1 }, renderResponse env t req) := by
      unfold generate
      rw [hres]
      simp only [hnone]
    refine ⟨hgen, ?_⟩
    intro png pdf h
    rw [hgen] at h
    exact renderResponse_payload h
  · intro u png pdf hu h
    unfold generate at h ⊢
    rw [hres] at h ⊢
    simp only [hu] at h ⊢
    split at h
    · cases h
    · rename_i qrImage hthumb
      split at h
      · cases h
      · rename_i db1 hc
        simp only [hc]
        exact ⟨renderResponse_payload h, qrImage, hthumb, create_eq_ok hc⟩
  · intro u qrImage hu hthumb hfresh
    unfold generate
    rw [hres]
    simp only [hu, hthumb]
    rw [create_fresh hfresh]
  · intro u e hu hthumb
    unfold generate
    rw [hres]
    simp only [hu, hthumb]
  · intro u qrImage hu hthumb htaken
    unfold generate
    rw [hres]
    simp only [hu, hthumb]
    rw [create_taken htaken]

theorem generate_registration_witness :
    resolveTarget demoEnv emptyWorld.fs demoRequest 5000 =
      .ok (emptyWorld.fs, js "https://example.com") ∧
    generate demoEnv emptyWorld demoRequest 5000 (js "abc") 1 5001 =
      ({ db := [{ _id := 1, userId := 7, title := js "Untitled",
                  targetUrl := js "https://example.com", shortId := js "abc",
                  qrImage := js "png:http://localhost:3000/r/abc", scans := 0,
                  scanHistory := [], createdAt := 5001, updatedAt := 5001 }],
         fs := emptyWorld.fs },
       .jsonGenerated (js "png:http://localhost:3000/r/abc")
         (js "pdf:png:http://localhost:3000/r/abc")) :=
  ⟨rfl,
   (generate_registration demoEnv emptyWorld demoRequest 5000 (js "abc") 1 5001 emptyWorld.fs
      (js "https://example.com") rfl).2.2.1 7 (js "png:http://localhost:3000/r/abc")
      rfl rfl (by decide)⟩

/-- C6 (counterexample). Two requests with an owner identity that pass validation
(the target resolves to `https://example.com`) and add no record. In the
first the generated `shortId` `abc` is the one of a stored record: the insert
is refused, the answer is 500 and the store is unchanged. In the second the
thumbnail renderer throws: the answer is 500 and the store stays empty. -/
theorem generate_owner_adds_no_record :
    demoRequest.userId = some 7 ∧
    resolveTarget demoEnv emptyWorld.fs demoRequest 5000 =
      .ok (emptyWorld.fs, js "https://example.com") ∧
    generate demoEnv { db := demoStore, fs := emptyWorld.fs } demoRequest 5000 (js "abc") 9 5001 =
      ({ db := demoStore, fs := emptyWorld.fs },
       .jsonError 500 "E11000 duplicate key error") ∧
    resolveTarget failingEnv emptyWorld.fs demoRequest 5000 =
      .ok (emptyWorld.fs, js "https://example.com") ∧
    generate failingEnv emptyWorld demoRequest 5000 (js "abc") 1 5001 =
      (emptyWorld, .jsonError 500 "render failed") :=
  ⟨rfl, rfl, by decide, rfl, by decide⟩

/-! ## GET /api/dashboard-stats: the histogram -/

theorem incrAt_length : ∀ (g : List Nat) (k : Nat), (incrAt g k).length = g.length
  | [], _ => rfl
  | _ :: _, 0 => rfl
  | x :: xs, k + 1 => by simp [incrAt, incrAt_length xs k]

theorem incrAt_getD : ∀ (g : List Nat) (k i : Nat),
    (incrAt g k).getD i 0 = g.getD i 0 + (if i = k ∧ k < g.length then 1 else 0)
  | [], k, i => by simp [incrAt]
  | x :: xs, 0, 0 => by simp [incrAt]
  | x :: xs, 0, i + 1 => by simp [incrAt]
  | x :: xs, k + 1, 0 => by simp [incrAt]
  | x :: xs, k + 1, i + 1 => by
    simp only [incrAt, List.getD_cons_succ, List.length_cons, Nat.add_lt_add_iff_right,
      Nat.add_right_cancel_iff]
    exact incrAt_getD xs k i

theorem incrAt_sum : ∀ (g : List Nat) (k : Nat), k < g.length → (incrAt g k).sum = g.sum + 1
  | [], _, h => by simp at h
  | x :: xs, 0, _ => by simp [incrAt]; omega
  | x :: xs, k + 1, h => by
    have hk : k < xs.length := by simpa using h
    simp [incrAt, incrAt_sum xs k hk]; omega

theorem countEvent_length (now : Int) (g : List Nat) (t : Int) :
    (countEvent now g t).length = g.length := by
  unfold countEvent
  simp only
  split
  · exact incrAt_length _ _
  · rfl

theorem countEvent_getD (now : Int) (g : List Nat) (t : Int) (hg : g.length = 7) (i : Nat)
    (hi : i < 7) :
    (countEvent now g t).getD i 0 =
      g.getD i 0 + (if wholeDays now t = 6 - (i : Int) then 1 else 0) := by
  unfold countEvent
  simp only
  generalize wholeDays now t = d
  split
  · rename_i h
    rw [incrAt_getD, hg]
    congr 1
    have hiff : (i = (6 - d).toNat ∧ (6 - d).toNat < 7) ↔ d = 6 - (i : Int) := by omega
    simp only [hiff]
  · rename_i h
    have hne : ¬ d = 6 - (i : Int) := by omega
    simp [hne]

theorem countEvent_sum (now : Int) (g : List Nat) (t : Int) (hg : g.length = 7) :
    (countEvent now g t).sum =
      g.sum + (if 0 ≤ wholeDays now t ∧ wholeDays now t < 7 then 1 else 0) := by
  unfold countEvent
  simp only
  generalize wholeDays now t = d
  split
  · rw [incrAt_sum g _ (by omega)]
  · rfl

/-- The expression of the source computes the age the specification means: the
integer floor division equals the floor of the exact rational quotient. -/
theorem wholeDays_eq_ageInDays (now timestamp : Int) :
    wholeDays now timestamp = ageInDays now timestamp := by
  unfold wholeDays ageInDays
  rw [Int.fdiv_eq_ediv (now - timestamp) (by decide)]
  have h := Rat.floor_intCast_div_natCast (now - timestamp) 86400000
  simpa using h.symm

theorem eventsOfAge_cons (t : Int) (rest : List Int) (now age : Int) :
    eventsOfAge (t :: rest) now age =
      eventsOfAge rest now age + (if wholeDays now t = age then 1 else 0) := by
  simp only [eventsOfAge, List.countP_cons, decide_eq_true_eq, wholeDays_eq_ageInDays]

theorem eventsInWindow_cons (t : Int) (rest : List Int) (now : Int) :
    eventsInWindow (t :: rest) now =
      eventsInWindow rest now +
        (if 0 ≤ wholeDays now t ∧ wholeDays now t < 7 then 1 else 0) := by
  simp only [eventsInWindow, List.countP_cons, decide_eq_true_eq, wholeDays_eq_ageInDays]

theorem foldl_countEvent (now : Int) (events : List Int) :
    ∀ g : List Nat, g.length = 7 →
      (events.foldl (countEvent now) g).length = 7 ∧
      (∀ i, i < 7 → (events.foldl (countEvent now) g).getD i 0 =
        g.getD i 0 + eventsOfAge events now (6 - (i : Int))) ∧
      (events.foldl (countEvent now) g).sum = g.sum + eventsInWindow events now := by
  induction events with
  | nil => intro g hg; simp [hg, eventsOfAge, eventsInWindow]
  | cons t rest ih =>
    intro g hg
    have hlen : (countEvent now g t).length = 7 := by rw [countEvent_length, hg]
    obtain ⟨h1, h2, h3⟩ := ih (countEvent now g t) hlen
    refine ⟨h1, ?_, ?_⟩
    · intro i hi
      rw [List.foldl_cons, h2 i hi, countEvent_getD now g t hg i hi, eventsOfAge_cons]
      omega
    · rw [List.foldl_cons, h3, countEvent_sum now g t hg, eventsInWindow_cons]
      omega

theorem graphData_eq_foldl (now : Int) (qrs : List QR) :
    ∀ g : List Nat,
      qrs.foldl (fun g qr => qr.scanHistory.foldl (countEvent now) g) g =
        (scanEvents qrs).foldl (countEvent now) g := by
  induction qrs with
  | nil => intro g; rfl
  | cons qr rest ih =>
    intro g
    simp only [List.foldl_cons, scanEvents, List.flatMap_cons, List.foldl_append]
    exact ih _

/-- Histogram of an arbitrary list of records: seven buckets, bucket `i` holds the
number of scan events of age `6 - i`, and the buckets together hold the events
of age 0 to 6. -/
theorem graphData_buckets (qrs : List QR) (now : Int) :
    (graphData qrs now).length = 7 ∧
    (∀ i : Fin 7, (graphData qrs now)[(i : Nat)]? =
      some (eventsOfAge (scanEvents qrs) now (6 - ((i : Nat) : Int)))) ∧
    (graphData qrs now).sum = eventsInWindow (scanEvents qrs) now := by
  unfold graphData
  rw [graphData_eq_foldl]
  obtain ⟨h1, h2, h3⟩ := foldl_countEvent now (scanEvents qrs) (List.replicate 7 0) rfl
  refine ⟨h1, ?_, ?_⟩
  · intro i
    have hi : (i : Nat) < (List.foldl (countEvent now) (List.replicate 7 0) (scanEvents qrs)).length := by
      rw [h1]; exact i.isLt
    rw [List.getElem?_eq_getElem hi, ← List.getD_eq_getElem _ 0 hi, h2 i i.isLt]
    have h0 : (List.replicate 7 0).getD (i : Nat) 0 = 0 := by
      have := i.isLt
      interval_cases (i : Nat) <;> rfl
    rw [h0, Nat.zero_add]
  · rw [h3]
    simp

theorem scanEvents_findByUser_perm (db : Store) (u : ObjectId) :
    (scanEvents (findByUser db u)).Perm
      (scanEvents (db.filter (fun r => decide (r.userId = u)))) :=
  List.Perm.flatMap_right _ (List.perm_insertionSort _ _)

/-- C1. Dashboard histogram: for every store, owner `u` and time `now`, the
handler answers with `graphData` computed from the records of `u`; it has
exactly 7 buckets, and for every `i` in 0..6 bucket `i` is the number of scan
events, over all `scanHistory` entries of all records of `u`, whose age in
whole days equals `6 - i`, the age being `ageInDays`, the floor of the exact
quotient `(now - timestamp) / 86400000`. The buckets together hold exactly the
events of age 0 to 6: an event of negative age or of age 7 or more is in no
bucket. -/
theorem dashboard_histogram (db : Store) (u : ObjectId) (now : Int) :
    getDashboardStats db (some u) now =
      .jsonStats (findByUser db u).length (totalScans (findByUser db u))
        (graphData (findByUser db u) now) (findByUser db u) ∧
    (graphData (findByUser db u) now).length = 7 ∧
    (∀ i : Fin 7, (graphData (findByUser db u) now)[(i : Nat)]? =
      some (eventsOfAge (scanEvents (db.filter (fun r => decide (r.userId = u)))) now
        (6 - ((i : Nat) : Int)))) ∧
    (graphData (findByUser db u) now).sum =
      eventsInWindow (scanEvents (db.filter (fun r => decide (r.userId = u)))) now := by
  obtain ⟨h1, h2, h3⟩ := graphData_buckets (findByUser db u) now
  have hperm := scanEvents_findByUser_perm db u
  refine ⟨rfl, h1, ?_, ?_⟩
  · intro i
    rw [h2 i]
    unfold eventsOfAge
    rw [hperm.countP_eq]
  · rw [h3]
    unfold eventsInWindow
    rw [hperm.countP_eq]

/-- The histogram at a concrete input: owner 7 of the example store at day 10
has events stamped day 10, one millisecond before day 10, day 4, day 2 and
one millisecond after day 10. The response holds `[1, 0, 0, 0, 0, 0, 2]`, and
by the theorem two of the events have age 0 (bucket 6), one has age 6
(bucket 0) and three are in the window: the event of day 2 (age 8) and the
event from the future are in no bucket. -/
theorem dashboard_histogram_witness :
    getDashboardStats histogramStore (some 7) 864000000 =
      .jsonStats 2 5 [1, 0, 0, 0, 0, 0, 2]
        (findByUser histogramStore 7) ∧
    eventsOfAge [864000000, 863999999, 345600000, 172800000, 864000001] 864000000 0 = 2 ∧
    eventsOfAge [864000000, 863999999, 345600000, 172800000, 864000001] 864000000 6 = 1 ∧
    eventsOfAge [864000000, 863999999, 345600000, 172800000, 864000001] 864000000 3 = 0 ∧
    eventsInWindow [864000000, 863999999, 345600000, 172800000, 864000001] 864000000 = 3 :=
  ⟨by decide,
   Option.some.inj (((dashboard_histogram histogramStore 7 864000000).2.2.1 ⟨6, by decide⟩).symm.trans
     (by decide)),
   Option.some.inj (((dashboard_histogram histogramStore 7 864000000).2.2.1 ⟨0, by decide⟩).symm.trans
     (by decide)),
   Option.some.inj (((dashboard_histogram histogramStore 7 864000000).2.2.1 ⟨3, by decide⟩).symm.trans
     (by decide)),
   (dashboard_histogram histogramStore 7 864000000).2.2.2.symm.trans (by decide)⟩

/-- The code side of the same example: the expression of line 272 on the five
timestamps. -/
theorem dashboard_histogram_example :
    graphData (findByUser histogramStore 7) 864000000 = [1, 0, 0, 0, 0, 0, 2] ∧
    wholeDays 864000000 863999999 = 0 ∧ wholeDays 864000000 345600000 = 6 ∧
    wholeDays 864000000 172800000 = 8 ∧ wholeDays 864000000 864000001 = -1 := by
  decide

/-! ## POST /generate: the file branch -/

theorem digitChar_safe : ∀ k, k < 10 → isSafeChar (Nat.digitChar k).toNat = true := by
  decide

theorem toDigitsCore_safe : ∀ (fuel n : Nat) (ds : List Char),
    (∀ c ∈ ds, isSafeChar c.toNat = true) →
    ∀ c ∈ Nat.toDigitsCore 10 fuel n ds, isSafeChar c.toNat = true := by
  intro fuel
  induction fuel with
  | zero => intro n ds h; simpa [Nat.toDigitsCore] using h
  | succ fuel ih =>
    intro n ds h
    have hd : isSafeChar (Nat.digitChar (n % 10)).toNat = true :=
      digitChar_safe (n % 10) (Nat.mod_lt n (by decide))
    have hds : ∀ c ∈ Nat.digitChar (n % 10) :: ds, isSafeChar c.toNat = true := by
      intro c hc
      rcases List.mem_cons.mp hc with e | hc
      · rw [e]; exact hd
      · exact h c hc
    unfold Nat.toDigitsCore
    simp only
    split
    · exact hds
    · exact ih (n / 10) _ hds

theorem decimal_safe (n : Nat) : ∀ c ∈ decimal n, isSafeChar c = true := by
  intro c hc
  unfold decimal at hc
  obtain ⟨d, hd, rfl⟩ := List.mem_map.mp hc
  exact toDigitsCore_safe (n + 1) n [] (fun _ h => by cases h) d hd

theorem sanitize_safe (name : JsString) : ∀ c ∈ sanitize name, isSafeChar c = true := by
  intro c hc
  unfold sanitize at hc
  obtain ⟨u, _, rfl⟩ := List.mem_map.mp hc
  by_cases h : isAlnumDot u = true
  · simp [h, isSafeChar]
  · simp [h, isSafeChar]

theorem storedFilename_safe (now : Nat) (name : JsString) :
    ∀ c ∈ storedFilename now name, isSafeChar c = true := by
  intro c hc
  unfold storedFilename at hc
  rcases List.mem_append.mp hc with hc | hc
  · rcases List.mem_append.mp hc with hc | hc
    · exact decimal_safe now c hc
    · have : c = 95 := by simpa [js, utf16] using hc
      rw [this]; decide
  · exact sanitize_safe name c hc

theorem resolveTarget_file_mode (env : Env) (fs : FileSystem) (req : GenerateRequest) (now : Nat)
    (hmode : req.mode = some (js "file")) :
    resolveTarget env fs req now = fileBranch env fs (js "file") req.file now [] := by
  unfold resolveTarget
  have h1 : orDefault req.mode (js "text") = js "file" := by rw [hmode]; decide
  have h2 : textBranch (js "file") req.content [] = .ok [] := by
    unfold textBranch
    rw [if_neg (by decide)]
  simp only [h1, h2]

/-- C9. File-mode storage name. For a request in mode `file` handled at time
`now`: (1) with an attached file of original name `n`, the stored file name is
`decimal(now) + '_' + s` with `s = sanitize n`, the file is written under that
name and `targetUrl` is `BASE_URL + '/uploads/' + filename`; `s` has the length
of `n` and holds, at every position, the code unit of `n` when it is in
`[A-Za-z0-9.]` and `_` otherwise; every code unit of the file name is in
`[A-Za-z0-9._]`, so it holds neither `/` nor a backslash. (2) With no attached
file the handler answers 400 `File missing` and the state (store and files) is
unchanged. -/
theorem file_mode_storage_name (env : Env) (w : World) (req : GenerateRequest) (now : Nat)
    (shortId : JsString) (newId : ObjectId) (createdAt : Int)
    (hmode : req.mode = some (js "file")) :
    (∀ f, req.file = some f →
      resolveTarget env w.fs req now =
        .ok (writeFileSync (ensureUploadsDir w.fs)
               (decimal now ++ js "_" ++ sanitize f.originalname) f.buffer,
             env.BASE_URL ++ js "/uploads/" ++
               (decimal now ++ js "_" ++ sanitize f.originalname)) ∧
      (sanitize f.originalname).length = f.originalname.length ∧
      (∀ i (h : i < f.originalname.length),
        (sanitize f.originalname)[i]? =
          some (if isAlnumDot f.originalname[i] = true then f.originalname[i] else 95)) ∧
      (∀ c ∈ decimal now ++ js "_" ++ sanitize f.originalname, isSafeChar c = true) ∧
      47 ∉ decimal now ++ js "_" ++ sanitize f.originalname ∧
      92 ∉ decimal now ++ js "_" ++ sanitize f.originalname) ∧
    (req.file = none →
      generate env w req now shortId newId createdAt = (w, .jsonError 400 "File missing")) := by
  constructor
  · intro f hf
    have hsafe := storedFilename_safe now f.originalname
    unfold storedFilename at hsafe
    refine ⟨?_, ?_, ?_, hsafe, ?_, ?_⟩
    · rw [resolveTarget_file_mode env w.fs req now hmode, hf]
      unfold fileBranch
      rw [if_pos rfl]
      rfl
    · simp [sanitize]
    · intro i h
      simp [sanitize, h]
    · intro h47
      have := hsafe 47 h47
      revert this; decide
    · intro h92
      have := hsafe 92 h92
      revert this; decide
  · intro hf
    unfold generate
    rw [resolveTarget_file_mode env w.fs req now hmode, hf]
    unfold fileBranch
    rw [if_pos rfl]

theorem file_mode_storage_name_witness :
    fileRequest.mode = some (js "file") ∧
    resolveTarget demoEnv emptyWorld.fs fileRequest 1700000000000 =
      .ok ({ uploadsDirExists := true,
             uploads := [(js "1700000000000_a_b__.txt", [1, 2, 3])] },
           js "http://localhost:3000/uploads/1700000000000_a_b__.txt") :=
  ⟨rfl,
   ((file_mode_storage_name demoEnv emptyWorld fileRequest 1700000000000 (js "abc") 1 5 rfl).1
      { originalname := js "a b/é.txt", buffer := [1, 2, 3] } rfl).1⟩

/-! ## POST /generate: the text branch -/

/-- Text mode (also the default when `mode` is absent or empty) with non-empty
content: `targetUrl` is the trimmed content and no file is written. -/
theorem resolveTarget_text_mode (env : Env) (fs : FileSystem) (req : GenerateRequest)
    (now : Nat) (c : JsString) (hmode : orDefault req.mode (js "text") = js "text")
    (hc : req.content = some c) (hne : c ≠ []) :
    resolveTarget env fs req now = .ok (fs, trim c) := by
  unfold resolveTarget
  simp only [hmode, hc, textBranch, if_true, if_neg hne]
  unfold fileBranch
  rw [if_neg (by decide)]

/-- Text mode with absent or empty content: 400 `Content missing`, nothing changes. -/
theorem generate_text_content_missing (env : Env) (w : World) (req : GenerateRequest)
    (now : Nat) (shortId : JsString) (newId : ObjectId) (createdAt : Int)
    (hmode : orDefault req.mode (js "text") = js "text")
    (hc : req.content = none ∨ req.content = some []) :
    generate env w req now shortId newId createdAt = (w, .jsonError 400 "Content missing") := by
  unfold generate resolveTarget
  rcases hc with hc | hc <;> simp [hmode, hc, textBranch]

/-- Any mode other than `text` and `file`: both branches are skipped, the content
is never read, and `targetUrl` keeps its initial value `''`. -/
theorem resolveTarget_other_mode (env : Env) (fs : FileSystem) (req : GenerateRequest)
    (now : Nat) (h1 : orDefault req.mode (js "text") ≠ js "text")
    (h2 : orDefault req.mode (js "text") ≠ js "file") :
    resolveTarget env fs req now = .ok (fs, []) := by
  unfold resolveTarget
  simp only [textBranch, if_neg h1]
  unfold fileBranch
  rw [if_neg h2]

/-- C2 (the code at the failing input). The request the page sends by default,
mode `link` with content `https://example.com`, has non-empty trimmed content,
yet the handler resolves `targetUrl` to the empty string: only mode `text`
reads the content. The renderer is then handed the empty payload. -/
theorem link_mode_targetUrl_empty (env : Env) (w : World) (now : Nat) (shortId : JsString)
    (newId : ObjectId) (createdAt : Int) :
    trim (js "https://example.com") = js "https://example.com" ∧
    resolveTarget env w.fs linkRequest now = .ok (w.fs, []) ∧
    generate env w linkRequest now shortId newId createdAt =
      (w, renderResponse env [] linkRequest) := by
  have hres : resolveTarget env w.fs linkRequest now = .ok (w.fs, []) :=
    resolveTarget_other_mode env w.fs linkRequest now (by decide) (by decide)
  refine ⟨by decide, hres, ?_⟩
  unfold generate
  rw [hres]
  rfl

/-- C3 (the code at the failing inputs). Text mode with content of three spaces:
the content is empty after trimming, yet the check `!req.body.content` runs
before the trim and lets it pass; `targetUrl` is the empty string, and for an
authenticated caller a record with empty `targetUrl` is created and an image is
returned. Link mode without content passes too, with empty `targetUrl`. -/
theorem whitespace_content_not_rejected (env : Env) (fs : FileSystem) (now : Nat) :
    trim (js "   ") = [] ∧
    resolveTarget env fs blankRequest now = .ok (fs, []) ∧
    generate demoEnv emptyWorld blankRequest 5000 (js "abc") 1 5001 =
      ({ db := [{ _id := 1, userId := 7, title := js "Untitled", targetUrl := [],
                  shortId := js "abc", qrImage := js "png:http://localhost:3000/r/abc",
                  scans := 0, scanHistory := [], createdAt := 5001, updatedAt := 5001 }],
         fs := emptyWorld.fs },
       .jsonGenerated (js "png:http://localhost:3000/r/abc")
         (js "pdf:png:http://localhost:3000/r/abc")) ∧
    resolveTarget env fs emptyLinkRequest now = .ok (fs, []) := by
  refine ⟨by decide, ?_, by decide, ?_⟩
  · exact resolveTarget_text_mode env fs blankRequest now (js "   ") (by decide) rfl (by decide)
  · exact resolveTarget_other_mode env fs emptyLinkRequest now (by decide) (by decide)

/-! ## Interleaved scans -/

/-- C10 (the code at the failing schedule). Two scans of the same code whose
reads both come before the writes (`read 0, read 1, write 0, write 1`): both
requests end with the redirect, yet the record ends with `scans = 1`, for
either way `save()` may persist the pushed entry. When the two requests run one
after the other the record ends with `scans = 2`. -/
theorem interleaved_scans_lose_update (m : PushMode) :
    (runSchedule m [freshRecord] [.start (js "abc"), .start (js "abc")] 1000
        [0, 1, 0, 1]).2 =
      [.finished (.redirect (js "https://example.com")),
       .finished (.redirect (js "https://example.com"))] ∧
    (runSchedule m [freshRecord] [.start (js "abc"), .start (js "abc")] 1000
        [0, 1, 0, 1]).1.map (fun r => r.scans) = [1] ∧
    (runSchedule m [freshRecord] [.start (js "abc"), .start (js "abc")] 1000
        [0, 0, 1, 1]).1.map (fun r => r.scans) = [2] := by
  cases m <;> decide

/-- The `scanHistory` after the interleaved schedule: one entry when `save()`
writes the array held in memory, two when it appends to the stored array. -/
theorem interleaved_scans_history :
    (runSchedule .wholeArray [freshRecord] [.start (js "abc"), .start (js "abc")] 1000
        [0, 1, 0, 1]).1.map (fun r => r.scanHistory) = [[1001]] ∧
    (runSchedule .append [freshRecord] [.start (js "abc"), .start (js "abc")] 1000
        [0, 1, 0, 1]).1.map (fun r => r.scanHistory) = [[1000, 1001]] := by
  decide

/-- A request run alone through its two steps is the handler `getR`. -/
theorem step_step_eq_getR (m : PushMode) (db : Store) (hwf : db.WF) (shortId : JsString)
    (now : Int) :
    let r1 := ScanTask.step m db now (.start shortId)
    let r2 := ScanTask.step m r1.1 (now + 1) r1.2
    (r2.1, r2.2) = ((getR db shortId now (now + 1)).1,
      ScanTask.finished (getR db shortId now (now + 1)).2) := by
  simp only [ScanTask.step, getR]
  cases hfind : findOneByShortId db shortId with
  | none => rfl
  | some qr =>
    simp only
    cases m with
    | wholeArray => rfl
    | append =>
      have hqr : qr ∈ db := List.mem_of_find?_eq_some hfind
      simp only [saveScan, save, Prod.mk.injEq]
      refine ⟨?_, rfl⟩
      apply List.map_congr_left
      intro x hx
      by_cases hid : x._id = (recordScan qr now)._id
      · have hxq : x = qr := hwf.id_inj hx hqr hid
        subst hxq
        simp [recordScan]
      · simp [hid]

/-! ## Every reachable store has unique `_id` and `shortId` -/

theorem create_preserves_WF {db db1 : Store} {newId userId : ObjectId}
    {title targetUrl shortId qrImage : JsString} {createdAt : Int} (hwf : db.WF)
    (h : create db newId userId title targetUrl shortId qrImage createdAt = .ok db1) :
    db1.WF := by
  have hdb1 := create_eq_ok h
  unfold create at h
  split at h
  · cases h
  · rename_i hany
    have hfresh : ∀ x ∈ db, x._id ≠ newId ∧ x.shortId ≠ shortId := by
      simpa using hany
    rw [hdb1]
    unfold Store.WF
    simp only [List.map_append, List.map_cons, List.map_nil]
    constructor
    · refine List.Nodup.append hwf.1 (List.nodup_singleton _) ?_
      rw [List.disjoint_singleton]
      intro hmem
      obtain ⟨x, hx, e⟩ := List.mem_map.mp hmem
      exact (hfresh x hx).1 e
    · refine List.Nodup.append hwf.2 (List.nodup_singleton _) ?_
      rw [List.disjoint_singleton]
      intro hmem
      obtain ⟨x, hx, e⟩ := List.mem_map.mp hmem
      exact (hfresh x hx).2 e

theorem generate_preserves_WF (env : Env) (w : World) (req : GenerateRequest) (now : Nat)
    (shortId : JsString) (newId : ObjectId) (createdAt : Int) (hwf : w.db.WF) :
    (generate env w req now shortId newId createdAt).1.db.WF := by
  unfold generate
  split
  · exact hwf
  · split
    · exact hwf
    · simp only
      split
      · exact hwf
      · split
        · exact hwf
        · rename_i db1 hc
          exact create_preserves_WF hwf hc

theorem getR_preserves_WF (db : Store) (shortId : JsString) (now savedAt : Int)
    (hwf : db.WF) : (getR db shortId now savedAt).1.WF := by
  unfold getR
  split
  · exact hwf
  · rename_i qr hfind
    have hqr : qr ∈ db := List.mem_of_find?_eq_some hfind
    simp only
    rw [save_eq_map hwf hqr (recordScan qr now) rfl savedAt]
    unfold Store.WF
    simp only [List.map_map]
    have h1 : List.map ((fun r : QR => r._id) ∘ fun x =>
        if x = qr then { recordScan qr now with updatedAt := savedAt } else x) db =
        List.map (fun r => r._id) db := by
      apply List.map_congr_left
      intro x _
      by_cases hx : x = qr
      · simp [hx, recordScan]
      · simp [hx]
    have h2 : List.map ((fun r : QR => r.shortId) ∘ fun x =>
        if x = qr then { recordScan qr now with updatedAt := savedAt } else x) db =
        List.map (fun r => r.shortId) db := by
      apply List.map_congr_left
      intro x _
      by_cases hx : x = qr
      · simp [hx, recordScan]
      · simp [hx]
    rw [h1, h2]
    exact hwf

theorem deleteQr_preserves_WF (castObjectId : JsString → Option ObjectId) (db : Store)
    (userId : Option ObjectId) (id : JsString) (hwf : db.WF) :
    (deleteQr castObjectId db userId id).1.WF := by
  unfold deleteQr
  split
  · exact hwf
  · split
    · exact hwf
    · split
      · exact hwf
      · simp only [deleteOne]
        exact ⟨List.Nodup.sublist ((List.eraseP_sublist db).map _) hwf.1,
          List.Nodup.sublist ((List.eraseP_sublist db).map _) hwf.2⟩

theorem foldl_applyOp_WF (env : Env) (ops : List Op) :
    ∀ w : World, w.db.WF → (ops.foldl (applyOp env) w).db.WF := by
  induction ops with
  | nil => intro w h; exact h
  | cons op rest ih =>
    intro w h
    apply ih
    cases op with
    | generate req now shortId newId createdAt =>
      exact generate_preserves_WF env w req now shortId newId createdAt h
    | scan shortId now savedAt => exact getR_preserves_WF w.db shortId now savedAt h
    | delete userId id => exact deleteQr_preserves_WF env.castObjectId w.db userId id h

/-- Every store reached by a sequence of requests has unique `_id` and unique
`shortId`: the hypothesis of the redirect and deletion theorems holds in every
reachable state. -/
theorem run_WF (env : Env) (ops : List Op) : (run env ops).db.WF :=
  foldl_applyOp_WF env ops emptyWorld ⟨List.nodup_nil, List.nodup_nil⟩

end QrStudio
